import Mathlib

/-!
Shallow embedding of the human-handoff subsystem of the ImprovedRAG
repository, centred on src/support_handoff.py (class SupportHandoff) and
src/RAGImprovedHandoff/conversation_manager.py (class ConversationState).

Modelling conventions:
* Redis is modelled as an explicit `Store` record: an association list of
  session records (one per session hash key), the support queue (a list of
  session ids, head of the Lean list = head of the Redis list, so LPUSH is
  cons and RPUSH is append), the online-agents hash and its key-level TTL.
* Wall-clock time is an explicit `now : Nat` argument (seconds).  ISO
  timestamp strings written by datetime.now().isoformat() are modelled as
  the Nat timestamp; empty-string "never set" fields are Option.none.
* Redis key expiry: a session record carries `expireAt : Option Nat`;
  a key is alive at `now` iff `now < expireAt` (EXPIRE key 10800 makes the
  key live for 10800 seconds).  An expired key is observationally absent,
  so every read goes through `lookupLive`, and HSET on an expired or
  missing key creates a fresh hash (modelled by `blankSession`, whose
  fields are the Redis "field absent" defaults) with no TTL.
* JSON encoding and decoding of the messages and metadata fields is the
  identity in the model (encode once on write, decode once on read).
* Fields of the session hash that no claim observes (language, category,
  contact data, context preview, conversation summary, metadata map) are
  omitted; the externally supplied conversation summary and langdetect
  calls are outside the embedded core.
* Python str.lower() is modelled on the alphabets that actually occur in
  the keyword tables and test inputs (ASCII and Russian Cyrillic); all
  other characters map to themselves.
-/

/-- One entry of the JSON-encoded message log of a session
(add_message / initial_messages in src/support_handoff.py). -/
structure Message where
  role : String
  content : String
  timestamp : Nat
deriving Repr, DecidableEq

/-- The session hash stored at key birmarket:session:<id>
(create_session in src/support_handoff.py), restricted to the fields the
claims observe, plus the key-level TTL deadline. -/
structure SessionRec where
  status : String
  priority : String
  query : String
  created_at : Option Nat
  agent_id : String
  agent_name : String
  assigned_at : Option Nat
  closed_at : Option Nat
  resolution : String
  rating : Option Nat
  messages : List Message
  expireAt : Option Nat
deriving Repr, DecidableEq

/-- One field value of the birmarket:agents:online hash
(mark_agent_online in src/support_handoff.py). -/
structure AgentInfo where
  name : String
  status : String
  last_seen : Nat
deriving Repr, DecidableEq

/-- The Redis state visible to SupportHandoff: session hashes, the
support queue list, and the online-agents hash together with the TTL that
EXPIRE sets on that single shared key. -/
structure Store where
  sessions : List (String × SessionRec)
  queue : List String
  agents : List (String × AgentInfo)
  agentsExpireAt : Option Nat
deriving Repr, DecidableEq

/-- The state of an empty Redis database. -/
def emptyStore : Store := ⟨[], [], [], none⟩

/-- A freshly HSET-created session hash: every string field reads as the
empty string, every timestamp field as never-set, the message log as
empty, and the key has no TTL. -/
def blankSession : SessionRec :=
  ⟨"", "", "", none, "", "", none, none, "", none, [], none⟩

/-! ### String primitives (Python substring semantics) -/

/-- Python str.lower restricted to the alphabets of the keyword tables:
ASCII capitals and Russian Cyrillic capitals (plus Io); every other
character is unchanged. -/
def lowerChar (c : Char) : Char :=
  if 65 ≤ c.toNat ∧ c.toNat ≤ 90 then Char.ofNat (c.toNat + 32)
  else if 0x410 ≤ c.toNat ∧ c.toNat ≤ 0x42F then Char.ofNat (c.toNat + 32)
  else if c = 'Ё' then 'ё'
  else c

/-- Whitespace characters removed by Python str.strip. -/
def isPySpace (c : Char) : Bool :=
  c = ' ' ∨ c = '\t' ∨ c = '\n' ∨ c = '\r'

/-- Python str.strip: drop whitespace from both ends. -/
def pyStrip (l : List Char) : List Char :=
  ((l.dropWhile isPySpace).reverse.dropWhile isPySpace).reverse

/-- Does pattern p occur at the very start of s (prefix test used by the
substring scan). -/
def matchesAt : List Char → List Char → Bool
  | [], _ => true
  | _ :: _, [] => false
  | c :: p, d :: s => c = d && matchesAt p s

/-- Python `p in s` for strings: does p occur as a contiguous substring
of s. -/
def containsSub (s p : List Char) : Bool :=
  match s with
  | [] => p.isEmpty
  | _ :: rest => matchesAt p s || containsSub rest p

/-- Python s.index(p): character offset of the first occurrence of p in
s (meaningful when containsSub s p holds, as at its call sites). -/
def indexOfSub (s p : List Char) : Nat :=
  match s with
  | [] => 0
  | _ :: rest => if matchesAt p s then 0 else indexOfSub rest p + 1

/-- Smallest first-occurrence offset over all patterns of the list that
occur in s (none when no pattern occurs).  This is the "earliest
character offset" reading of the tie-break rule in the spec. -/
def earliestOffset (s : List Char) : List String → Option Nat
  | [] => none
  | p :: ps =>
    let rest := earliestOffset s ps
    if containsSub s p.data then
      match rest with
      | none => some (indexOfSub s p.data)
      | some m => some (min (indexOfSub s p.data) m)
    else rest

/-! ### Keyword tables of the source -/

/-- high_priority_keywords of SupportHandoff._calculate_priority. -/
def high_priority_keywords : List String :=
  ["срочно", "urgent", "təcili",
   "не работает", "işləmir", "not working",
   "ошибка", "xəta", "error",
   "деньги", "pul", "money",
   "не пришёл", "gəlmədi", "didn\x27t arrive"]

/-- yes_patterns of ConversationState.parse_user_response. -/
def yes_patterns : List String :=
  ["да", "yes", "bəli", "evet", "hai",
   "конечно", "of course", "əlbəttə", "tabii", "sure",
   "хорошо", "ok", "okay", "yaxşı", "tamam", "alright",
   "давай", "gəl", "let\x27s go",
   "соедини", "connect", "bağla",
   "подтверждаю", "confirm", "təsdiq",
   "+", "👍", "✅", "✓"]

/-- no_patterns of ConversationState.parse_user_response. -/
def no_patterns : List String :=
  ["нет", "no", "xeyr", "hayır", "yok",
   "не надо", "not needed", "lazım deyil", "gerek yok",
   "отмена", "cancel", "ləğv et", "iptal",
   "не хочу", "don\x27t want", "istəmirəm", "istemiyorum",
   "откажусь", "refuse", "imtina",
   "-", "👎", "❌", "✗"]

/-- SupportHandoff._calculate_priority: high iff some high-priority
keyword occurs in query.lower(); the user id is only consulted by a
commented-out VIP check. -/
def calculate_priority (query : String) (_userId : String) : String :=
  let ql := query.data.map lowerChar
  if high_priority_keywords.any (fun p => containsSub ql p.data) then "high"
  else "normal"

/-- The lowered and stripped form query.lower().strip() that
parse_user_response scans. -/
def normQuery (q : String) : List Char :=
  pyStrip (q.data.map lowerChar)

/-- Does any pattern of the list occur in the normalised query
(the any(pattern in query_lower ...) scans of parse_user_response). -/
def anyMatch (ql : List Char) (pats : List String) : Bool :=
  pats.any (fun p => containsSub ql p.data)

/-- Python next(p for p in pats if p in query_lower): the first pattern
in LIST order that occurs in the query (not the pattern occurring
earliest in the query). -/
def firstMatch (ql : List Char) : List String → Option (List Char)
  | [] => none
  | p :: ps => if containsSub ql p.data then some p.data else firstMatch ql ps

/-- ConversationState.parse_user_response of
src/RAGImprovedHandoff/conversation_manager.py: lowercase and strip the
query, test both pattern lists; if both match, compare the first
occurrence offsets of the first-in-list matching pattern of each list;
otherwise answer for whichever list matched, else unclear. -/
def parse_user_response (query : String) : String :=
  let ql := normQuery query
  let isY := anyMatch ql yes_patterns
  let isN := anyMatch ql no_patterns
  if isY && isN then
    match firstMatch ql yes_patterns, firstMatch ql no_patterns with
    | some py, some pn => if indexOfSub ql py < indexOfSub ql pn then "yes" else "no"
    | _, _ => "unclear"
  else if isY then "yes"
  else if isN then "no"
  else "unclear"

/-- The is_yes flag of parse_user_response: some affirmative pattern
occurs in the normalised query. -/
def matchesYes (q : String) : Bool := anyMatch (normQuery q) yes_patterns

/-- The is_no flag of parse_user_response: some negative pattern occurs
in the normalised query. -/
def matchesNo (q : String) : Bool := anyMatch (normQuery q) no_patterns

example : parse_user_response "да" = "yes" := by decide
example : parse_user_response "нет, спасибо" = "no" := by decide
example : parse_user_response "hm" = "unclear" := by decide
example : calculate_priority "urgent help" "u" = "high" := by decide
example : calculate_priority "hello" "u" = "normal" := by decide

/-! ### Association-list primitives for the Redis hashes -/

/-- Lookup by key in an association list (the value Redis stores under a
hash field or key). -/
def lookupK {α : Type} : List (String × α) → String → Option α
  | [], _ => none
  | p :: t, k => if p.1 = k then some p.2 else lookupK t k

/-- Remove every binding of a key (overwriting a Redis key replaces the
old value, and HDEL removes a field). -/
def removeKey {α : Type} (k : String) : List (String × α) → List (String × α)
  | [] => []
  | p :: t => if p.1 = k then removeKey k t else p :: removeKey k t

/-- Overwrite the binding of a key. -/
def insertKey {α : Type} (k : String) (v : α) (l : List (String × α)) :
    List (String × α) :=
  (k, v) :: removeKey k l

/-- Redis LREM queue 0 sid: remove every occurrence of sid from the
list. -/
def lrem (sid : String) : List String → List String
  | [] => []
  | x :: t => if x = sid then lrem sid t else x :: lrem sid t

/-- One-based rank of the first occurrence of sid
(list.index(sid) + 1 in get_queue_position), none when absent. -/
def posOf (sid : String) : List String → Option Nat
  | [] => none
  | x :: t => if x = sid then some 1 else (posOf sid t).map (· + 1)

/-! ### Redis key expiry -/

/-- Is a session key alive at time now (EXPIRE key n keeps the key for n
seconds; a key with no TTL persists). -/
def sessionAlive (now : Nat) (r : SessionRec) : Bool :=
  match r.expireAt with
  | none => true
  | some t => decide (now < t)

/-- Lookup of a session hash honouring key expiry: an expired key is
observationally absent. -/
def lookupS (l : List (String × SessionRec)) (now : Nat) (sid : String) :
    Option SessionRec :=
  match lookupK l sid with
  | some r => if sessionAlive now r then some r else none
  | none => none

/-- Lookup of the session hash for sid in the store at time now. -/
def lookupLive (st : Store) (now : Nat) (sid : String) : Option SessionRec :=
  lookupS st.sessions now sid

/-- Redis HSET on the session hash: update the live hash if the key
exists, otherwise create a fresh hash (with no TTL) and update that.
HSET never touches the TTL of an existing key. -/
def hsetSession (st : Store) (now : Nat) (sid : String)
    (f : SessionRec → SessionRec) : Store :=
  { st with sessions :=
      insertKey sid (f ((lookupLive st now sid).getD blankSession)) st.sessions }

/-! ### SupportHandoff operations (src/support_handoff.py) -/

/-- The session hash create_session builds: status waiting, computed
priority, the initiating query seeded as the single message, and the
3-hour TTL that EXPIRE sets on the fresh key. -/
def createRec (now : Nat) (query userId : String) : SessionRec :=
  { status := "waiting", priority := calculate_priority query userId,
    query := query, created_at := some now, agent_id := "",
    agent_name := "", assigned_at := none, closed_at := none,
    resolution := "", rating := none,
    messages := [⟨"user", query, now⟩], expireAt := some (now + 10800) }

/-- SupportHandoff.create_session: build the session hash with status
waiting and the initiating query as the single seeded message, store it,
LPUSH the id when the computed priority is high and RPUSH otherwise, and
set a 10800-second (3-hour) TTL on the session key. -/
def create_session (st : Store) (now : Nat) (sid : String) (query : String)
    (userId : String) : Store :=
  { st with
    sessions := insertKey sid (createRec now query userId) st.sessions,
    queue := if calculate_priority query userId = "high" then sid :: st.queue
             else st.queue ++ [sid] }

/-- SupportHandoff.get_session: HGETALL; an empty result (missing or
expired key) is None, otherwise the hash with its JSON fields decoded. -/
def get_session (st : Store) (now : Nat) (sid : String) : Option SessionRec :=
  lookupLive st now sid

/-- Loop body of SupportHandoff.get_queue: walk the queue ids, keep the
sessions get_session still finds. -/
def get_queue_go (st : Store) (now : Nat) : List String → List SessionRec
  | [] => []
  | sid :: rest =>
    match get_session st now sid with
    | some s => s :: get_queue_go st now rest
    | none => get_queue_go st now rest

/-- SupportHandoff.get_queue: LRANGE the queue and collect the sessions
that still resolve. -/
def get_queue (st : Store) (now : Nat) : List SessionRec :=
  get_queue_go st now st.queue

/-- SupportHandoff.get_queue_position: queue.index(sid) + 1, or None
when absent. -/
def get_queue_position (st : Store) (sid : String) : Option Nat :=
  posOf sid st.queue

/-- SupportHandoff.assign_agent: False when the session key does not
exist (or expired); otherwise HSET status assigned with the agent data
and the assignment time, LREM the id from the queue, and return True. -/
def assign_agent (st : Store) (now : Nat) (sid aid aname : String) :
    Bool × Store :=
  match lookupLive st now sid with
  | none => (false, st)
  | some r =>
    (true,
     { st with
       sessions := insertKey sid
         { r with status := "assigned", agent_id := aid,
                  agent_name := aname, assigned_at := some now }
         st.sessions,
       queue := lrem sid st.queue })

/-- SupportHandoff.activate_session: unconditional HSET status active
(no existence or status check). -/
def activate_session (st : Store) (now : Nat) (sid : String) : Store :=
  hsetSession st now sid (fun r => { r with status := "active" })

/-- Read phase of SupportHandoff.add_message: HGET messages and decode,
an absent key or field giving the empty log. -/
def am_read (st : Store) (now : Nat) (sid : String) : List Message :=
  match lookupLive st now sid with
  | some r => r.messages
  | none => []

/-- Write phase of SupportHandoff.add_message: HSET messages to the
previously read log with the new entry appended. -/
def am_write (st : Store) (now : Nat) (sid : String) (msgs : List Message)
    (m : Message) : Store :=
  hsetSession st now sid (fun r => { r with messages := msgs ++ [m] })

/-- SupportHandoff.add_message is exactly the read phase followed by the
write phase: a read-modify-write of the whole message-log blob. -/
def add_message (st : Store) (now : Nat) (sid role content : String) : Store :=
  am_write st now sid (am_read st now sid) ⟨role, content, now⟩

/-- The update_data write of close_session applied to a session hash:
status closed, close time, resolution, and the rating only when truthy
(Python if rating: skips both None and 0). -/
def closeWrite (now : Nat) (resolution : String) (rating : Option Nat)
    (r : SessionRec) : SessionRec :=
  { r with status := "closed", closed_at := some now,
           resolution := resolution,
           rating := match rating with
                     | some k => if k = 0 then r.rating else some k
                     | none => r.rating }

/-- The session hash right after the HSET of close_session's
update_data, before the system message is appended. -/
def closedRec (st : Store) (now : Nat) (sid resolution : String)
    (rating : Option Nat) : SessionRec :=
  closeWrite now resolution rating ((lookupLive st now sid).getD blankSession)

/-- SupportHandoff.close_session: HSET status closed with close time and
resolution (and the rating when truthy), append the system message via
add_message, then LREM the id from the queue. -/
def close_session (st : Store) (now : Nat) (sid : String) (resolution : String)
    (rating : Option Nat) : Store :=
  let st1 := hsetSession st now sid (closeWrite now resolution rating)
  let st2 := add_message st1 now sid "system" "Чат завершён"
  { st2 with queue := lrem sid st2.queue }

/-! ### Agent presence (one shared Redis hash with one key-level TTL) -/

/-- Is the birmarket:agents:online key alive at time now. -/
def agentsAlive (st : Store) (now : Nat) : Bool :=
  match st.agentsExpireAt with
  | none => true
  | some t => decide (now < t)

/-- SupportHandoff.mark_agent_online: HSET the agent field on the shared
hash (recreating the hash if the key had expired) and EXPIRE the WHOLE
key for 300 seconds. -/
def mark_agent_online (st : Store) (now : Nat) (aid aname : String) : Store :=
  let base := if agentsAlive st now then st.agents else []
  { st with
    agents := insertKey aid ⟨aname, "online", now⟩ base,
    agentsExpireAt := some (now + 300) }

/-- SupportHandoff.mark_agent_offline: HDEL the agent field (a no-op on
an expired key, whose hash is already gone). -/
def mark_agent_offline (st : Store) (now : Nat) (aid : String) : Store :=
  if agentsAlive st now then { st with agents := removeKey aid st.agents }
  else st

/-- SupportHandoff.get_online_agents: HGETALL on the shared key; an
expired key reads as the empty hash. -/
def get_online_agents (st : Store) (now : Nat) : List (String × AgentInfo) :=
  if agentsAlive st now then st.agents else []

/-! ### Derived observations -/

/-- The status field a reader sees for a session at time now. -/
def statusOf (st : Store) (now : Nat) (sid : String) : Option String :=
  (lookupLive st now sid).map SessionRec.status

/-- The TTL deadline physically stored on a session key, ignoring
liveness (what EXPIRE last set, if anything). -/
def storedExpireAt (st : Store) (sid : String) : Option Nat :=
  (lookupK st.sessions sid).bind SessionRec.expireAt

/-- Queue-store agreement invariant of the spec: every queued id resolves
to a live waiting session, and every live waiting session is queued. -/
def queueInv (st : Store) (now : Nat) : Prop :=
  (∀ sid ∈ st.queue, statusOf st now sid = some "waiting") ∧
  (∀ p ∈ st.sessions, sessionAlive now p.2 = true → p.2.status = "waiting" →
    p.1 ∈ st.queue)

instance (st : Store) (now : Nat) : Decidable (queueInv st now) := by
  unfold queueInv; infer_instance

example :
    statusOf (create_session emptyStore 0 "s" "hello" "u") 0 "s"
      = some "waiting" := by decide
example :
    get_queue_position (create_session emptyStore 0 "s" "hello" "u") "s"
      = some 1 := by decide

/-! ### Lemmas about the store primitives -/

theorem lookupK_removeKey_ne {α : Type} (k k' : String)
    (l : List (String × α)) (h : k' ≠ k) :
    lookupK (removeKey k l) k' = lookupK l k' := by
  induction l with
  | nil => rfl
  | cons p t ih =>
    by_cases hp : p.1 = k
    · simp [removeKey, hp, lookupK, Ne.symm h, ih]
    · by_cases hp' : p.1 = k'
      · simp [removeKey, hp, lookupK, hp', h]
      · simp [removeKey, hp, lookupK, hp', ih]

theorem lookupK_insertKey_self {α : Type} (k : String) (v : α)
    (l : List (String × α)) :
    lookupK (insertKey k v l) k = some v := by
  simp [insertKey, lookupK]

theorem lookupK_insertKey_ne {α : Type} (k k' : String) (v : α)
    (l : List (String × α)) (h : k' ≠ k) :
    lookupK (insertKey k v l) k' = lookupK l k' := by
  simp [insertKey, lookupK, Ne.symm h, lookupK_removeKey_ne k k' l h]

theorem mem_removeKey {α : Type} (k : String) (p : String × α)
    (l : List (String × α)) :
    p ∈ removeKey k l ↔ p ∈ l ∧ p.1 ≠ k := by
  induction l with
  | nil => simp [removeKey]
  | cons q t ih =>
    by_cases hq : q.1 = k
    · simp only [removeKey, if_pos hq, ih, List.mem_cons]
      constructor
      · rintro ⟨hm, hne⟩; exact ⟨Or.inr hm, hne⟩
      · rintro ⟨hm | hm, hne⟩
        · subst hm; exact absurd hq hne
        · exact ⟨hm, hne⟩
    · simp only [removeKey, if_neg hq, List.mem_cons, ih]
      constructor
      · rintro (rfl | ⟨hm, hne⟩)
        · exact ⟨Or.inl rfl, hq⟩
        · exact ⟨Or.inr hm, hne⟩
      · rintro ⟨rfl | hm, hne⟩
        · exact Or.inl rfl
        · exact Or.inr ⟨hm, hne⟩

theorem mem_insertKey {α : Type} (k : String) (v : α) (p : String × α)
    (l : List (String × α)) :
    p ∈ insertKey k v l ↔ p = (k, v) ∨ (p ∈ l ∧ p.1 ≠ k) := by
  simp [insertKey, mem_removeKey]

theorem mem_lrem (sid x : String) (l : List String) :
    x ∈ lrem sid l ↔ x ∈ l ∧ x ≠ sid := by
  induction l with
  | nil => simp [lrem]
  | cons y t ih =>
    by_cases hy : y = sid
    · simp only [lrem, if_pos hy, ih, List.mem_cons]
      constructor
      · rintro ⟨hm, hne⟩; exact ⟨Or.inr hm, hne⟩
      · rintro ⟨hm | hm, hne⟩
        · exact absurd (hm.trans hy) hne
        · exact ⟨hm, hne⟩
    · simp only [lrem, if_neg hy, List.mem_cons, ih]
      constructor
      · rintro (rfl | ⟨hm, hne⟩)
        · exact ⟨Or.inl rfl, hy⟩
        · exact ⟨Or.inr hm, hne⟩
      · rintro ⟨rfl | hm, hne⟩
        · exact Or.inl rfl
        · exact Or.inr ⟨hm, hne⟩

theorem posOf_eq_none_iff (sid : String) (l : List String) :
    posOf sid l = none ↔ sid ∉ l := by
  induction l with
  | nil => simp [posOf]
  | cons x t ih =>
    by_cases hx : x = sid
    · subst hx; simp [posOf]
    · simp only [posOf, if_neg hx, List.mem_cons, Option.map_eq_none', ih]
      constructor
      · intro hn h
        cases h with
        | inl h => exact hx h.symm
        | inr h => exact hn h
      · intro hn
        exact fun hm => hn (Or.inr hm)

theorem lookupS_insertKey_self (l : List (String × SessionRec)) (now : Nat)
    (sid : String) (v : SessionRec) :
    lookupS (insertKey sid v l) now sid
      = if sessionAlive now v then some v else none := by
  simp [lookupS, lookupK_insertKey_self]

theorem lookupS_insertKey_ne (l : List (String × SessionRec)) (now : Nat)
    (sid sid' : String) (v : SessionRec) (h : sid' ≠ sid) :
    lookupS (insertKey sid v l) now sid' = lookupS l now sid' := by
  simp [lookupS, lookupK_insertKey_ne sid sid' v l h]

theorem get_queue_go_filterMap (st : Store) (now : Nat) (l : List String) :
    get_queue_go st now l = l.filterMap (fun sid => get_session st now sid) := by
  induction l with
  | nil => rfl
  | cons sid rest ih =>
    unfold get_queue_go
    cases h : get_session st now sid with
    | some s => simp [List.filterMap_cons, h, ih]
    | none => simp [List.filterMap_cons, h, ih]

theorem lookupS_some_alive (l : List (String × SessionRec)) (now : Nat)
    (sid : String) (r : SessionRec) (h : lookupS l now sid = some r) :
    sessionAlive now r = true := by
  unfold lookupS at h
  cases hk : lookupK l sid with
  | none => simp [hk] at h
  | some r' =>
    simp only [hk] at h
    by_cases ha : sessionAlive now r' = true
    · rw [if_pos ha] at h
      cases h
      exact ha
    · rw [if_neg ha] at h
      exact absurd h (by simp)

theorem sessionAlive_eq_of_expire (now : Nat) (r r' : SessionRec)
    (h : r.expireAt = r'.expireAt) :
    sessionAlive now r = sessionAlive now r' := by
  unfold sessionAlive
  rw [h]

theorem sessionAlive_some (now t : Nat) (r : SessionRec)
    (h : r.expireAt = some t) (hlt : now < t) :
    sessionAlive now r = true := by
  unfold sessionAlive
  rw [h]
  simpa using hlt

theorem sessionAlive_getD (st : Store) (now : Nat) (sid : String) :
    sessionAlive now ((lookupLive st now sid).getD blankSession) = true := by
  cases h : lookupLive st now sid with
  | none => rfl
  | some r => exact lookupS_some_alive st.sessions now sid r h

theorem lookupLive_create (st : Store) (now : Nat) (sid q uid : String) :
    lookupLive (create_session st now sid q uid) now sid
      = some (createRec now q uid) := by
  have halive : sessionAlive now (createRec now q uid) = true :=
    sessionAlive_some now (now + 10800) _ rfl (by omega)
  show lookupS (insertKey sid (createRec now q uid) st.sessions) now sid = _
  rw [lookupS_insertKey_self, if_pos halive]

theorem create_session_queue (st : Store) (now : Nat) (sid q uid : String) :
    (create_session st now sid q uid).queue
      = if calculate_priority q uid = "high" then sid :: st.queue
        else st.queue ++ [sid] := rfl

theorem create_session_sessions (st : Store) (now : Nat) (sid q uid : String) :
    (create_session st now sid q uid).sessions
      = insertKey sid (createRec now q uid) st.sessions := rfl

theorem lookupLive_hset_self (st : Store) (now : Nat) (sid : String)
    (f : SessionRec → SessionRec)
    (hpres : (f ((lookupLive st now sid).getD blankSession)).expireAt
      = ((lookupLive st now sid).getD blankSession).expireAt) :
    lookupLive (hsetSession st now sid f) now sid
      = some (f ((lookupLive st now sid).getD blankSession)) := by
  have halive :
      sessionAlive now (f ((lookupLive st now sid).getD blankSession)) = true := by
    rw [sessionAlive_eq_of_expire now _ _ hpres]
    exact sessionAlive_getD st now sid
  show lookupS
      (insertKey sid (f ((lookupLive st now sid).getD blankSession)) st.sessions)
      now sid = _
  rw [lookupS_insertKey_self, if_pos halive]

theorem am_read_getD (st : Store) (now : Nat) (sid : String) :
    am_read st now sid = ((lookupLive st now sid).getD blankSession).messages := by
  unfold am_read
  cases lookupLive st now sid with
  | none => rfl
  | some r => rfl

theorem assign_agent_missing (st : Store) (now : Nat) (sid aid an : String)
    (h : lookupLive st now sid = none) :
    assign_agent st now sid aid an = (false, st) := by
  unfold assign_agent
  rw [h]

theorem assign_agent_found (st : Store) (now : Nat) (sid aid an : String)
    (r : SessionRec) (h : lookupLive st now sid = some r) :
    assign_agent st now sid aid an
      = (true,
         { st with
           sessions := insertKey sid
             { r with status := "assigned", agent_id := aid,
                      agent_name := an, assigned_at := some now }
             st.sessions,
           queue := lrem sid st.queue }) := by
  unfold assign_agent
  rw [h]

theorem lookupLive_activate (st : Store) (now : Nat) (sid : String) :
    lookupLive (activate_session st now sid) now sid
      = some { (lookupLive st now sid).getD blankSession with
               status := "active" } :=
  lookupLive_hset_self st now sid _ rfl

theorem lookupLive_add_message (st : Store) (now : Nat)
    (sid role content : String) :
    lookupLive (add_message st now sid role content) now sid
      = some { (lookupLive st now sid).getD blankSession with
               messages := am_read st now sid ++ [⟨role, content, now⟩] } :=
  lookupLive_hset_self st now sid _ rfl

theorem lookupLive_close (st : Store) (now : Nat) (sid res : String)
    (rat : Option Nat) :
    lookupLive (close_session st now sid res rat) now sid
      = some { closedRec st now sid res rat with
               messages := (closedRec st now sid res rat).messages
                 ++ [⟨"system", "Чат завершён", now⟩] } := by
  have h1 : lookupLive (hsetSession st now sid (closeWrite now res rat)) now sid
      = some (closedRec st now sid res rat) :=
    lookupLive_hset_self st now sid _ rfl
  show lookupLive (add_message (hsetSession st now sid (closeWrite now res rat))
      now sid "system" "Чат завершён") now sid = _
  rw [lookupLive_add_message, am_read_getD, h1]
  exact rfl

theorem close_session_queue (st : Store) (now : Nat) (sid res : String)
    (rat : Option Nat) :
    (close_session st now sid res rat).queue = lrem sid st.queue := rfl

theorem close_session_sessions (st : Store) (now : Nat) (sid res : String)
    (rat : Option Nat) :
    ∃ r2 r1 : SessionRec,
      (close_session st now sid res rat).sessions
        = insertKey sid r2 (insertKey sid r1 st.sessions)
      ∧ r2.status = "closed"
      ∧ r2.expireAt = ((lookupLive st now sid).getD blankSession).expireAt := by
  have h1 : lookupLive (hsetSession st now sid (closeWrite now res rat)) now sid
      = some (closedRec st now sid res rat) :=
    lookupLive_hset_self st now sid _ rfl
  refine ⟨_, _, rfl, ?_, ?_⟩
  · show ((lookupLive (hsetSession st now sid (closeWrite now res rat)) now
        sid).getD blankSession).status = "closed"
    rw [h1]
    exact rfl
  · show ((lookupLive (hsetSession st now sid (closeWrite now res rat)) now
        sid).getD blankSession).expireAt
      = ((lookupLive st now sid).getD blankSession).expireAt
    rw [h1]
    exact rfl

theorem add_message_sessions (st : Store) (now : Nat)
    (sid role content : String) :
    (add_message st now sid role content).sessions
      = insertKey sid
          { (lookupLive st now sid).getD blankSession with
            messages := am_read st now sid ++ [⟨role, content, now⟩] }
          st.sessions := rfl

theorem activate_session_sessions (st : Store) (now : Nat) (sid : String) :
    (activate_session st now sid).sessions
      = insertKey sid
          { (lookupLive st now sid).getD blankSession with status := "active" }
          st.sessions := rfl

theorem statusOf_activate (st : Store) (now : Nat) (sid : String) :
    statusOf (activate_session st now sid) now sid = some "active" := by
  unfold statusOf
  rw [lookupLive_activate]
  exact rfl

theorem statusOf_close (st : Store) (now : Nat) (sid res : String)
    (rat : Option Nat) :
    statusOf (close_session st now sid res rat) now sid = some "closed" := by
  unfold statusOf
  rw [lookupLive_close]
  exact rfl

theorem statusOf_assign_found (st : Store) (now : Nat) (sid aid an : String)
    (r : SessionRec) (h : lookupLive st now sid = some r) :
    statusOf ((assign_agent st now sid aid an).2) now sid = some "assigned" := by
  rw [assign_agent_found st now sid aid an r h]
  unfold statusOf
  have halive : sessionAlive now
      ({ r with status := "assigned", agent_id := aid, agent_name := an,
                assigned_at := some now } : SessionRec) = true := by
    rw [sessionAlive_eq_of_expire now
      { r with status := "assigned", agent_id := aid, agent_name := an,
               assigned_at := some now } r rfl]
    exact lookupS_some_alive st.sessions now sid r h
  show (lookupS (insertKey sid
      { r with status := "assigned", agent_id := aid, agent_name := an,
               assigned_at := some now } st.sessions) now sid).map
      SessionRec.status = some "assigned"
  rw [lookupS_insertKey_self, if_pos halive]
  exact rfl

theorem lookupLive_create_ne (st : Store) (now : Nat) (sid q uid sid2 : String)
    (hne : sid2 ≠ sid) :
    lookupLive (create_session st now sid q uid) now sid2
      = lookupLive st now sid2 := by
  show lookupS (insertKey sid (createRec now q uid) st.sessions) now sid2 = _
  exact lookupS_insertKey_ne st.sessions now sid sid2 _ hne

/-! ### Claim theorems -/

/-- C1 amended: each lifecycle operation writes the status
unconditionally, so the statuses seen along the CANONICAL order
create, assign_agent, activate_session, close_session are exactly
waiting, assigned, active, closed (the forward chain); but no operation
guards against out-of-order calls, so the chain is only forward when the
caller follows this order (C1_counterexample shows activate_session
after close_session moving a closed session back to active). -/
theorem C1_amended (st : Store) (now : Nat) (sid q uid aid an res : String)
    (rat : Option Nat) :
    statusOf (create_session st now sid q uid) now sid = some "waiting" ∧
    statusOf ((assign_agent (create_session st now sid q uid) now sid aid
      an).2) now sid = some "assigned" ∧
    statusOf (activate_session ((assign_agent (create_session st now sid q
      uid) now sid aid an).2) now sid) now sid = some "active" ∧
    statusOf (close_session (activate_session ((assign_agent (create_session
      st now sid q uid) now sid aid an).2) now sid) now sid res rat) now sid
      = some "closed" := by
  refine ⟨?_, ?_, ?_, ?_⟩
  · unfold statusOf
    rw [lookupLive_create]
    exact rfl
  · exact statusOf_assign_found _ now sid aid an _
      (lookupLive_create st now sid q uid)
  · exact statusOf_activate _ now sid
  · exact statusOf_close _ now sid res rat

/-- C3 amended: on a missing or expired session id, only assign_agent
rejects (returns False) and leaves the store untouched; add_message,
activate_session and close_session signal nothing and instead create a
fresh partial session hash as a side effect (with just the written
fields: an active status, a one-entry message log, or a closed status
with the system message). -/
theorem C3_amended (st : Store) (now : Nat) (sid role content aid an res :
    String) (rat : Option Nat) (h : lookupLive st now sid = none) :
    assign_agent st now sid aid an = (false, st) ∧
    lookupLive (activate_session st now sid) now sid
      = some { blankSession with status := "active" } ∧
    lookupLive (add_message st now sid role content) now sid
      = some { blankSession with messages := [⟨role, content, now⟩] } ∧
    statusOf (close_session st now sid res rat) now sid = some "closed" ∧
    am_read (close_session st now sid res rat) now sid
      = [⟨"system", "Чат завершён", now⟩] := by
  refine ⟨assign_agent_missing st now sid aid an h, ?_, ?_,
    statusOf_close st now sid res rat, ?_⟩
  · rw [lookupLive_activate, h]
    exact rfl
  · rw [lookupLive_add_message, am_read_getD, h]
    exact rfl
  · rw [am_read_getD (close_session st now sid res rat), lookupLive_close]
    unfold closedRec
    rw [h]
    exact rfl

/-- C3 amended witness at a concrete missing id on the empty store. -/
theorem C3_amended_witness :
    lookupLive emptyStore 0 "g" = none ∧
    assign_agent emptyStore 0 "g" "a" "A" = (false, emptyStore) :=
  ⟨rfl, (C3_amended emptyStore 0 "g" "user" "hi" "a" "A" "resolved" none
    rfl).1⟩

/-- C5 amended: close_session never errors and is safe in any state: it
always reads back closed, stamps closed-at with the call time, appends
exactly one trailing system message per call, and removes the id from
the queue even if never queued.  It is idempotent on status and queue
membership, but NOT on the full record: a second call appends a second
system message (C5_counterexample), so the terminal records differ. -/
theorem C5_amended (st : Store) (now : Nat) (sid res : String)
    (rat : Option Nat) :
    statusOf (close_session st now sid res rat) now sid = some "closed" ∧
    (lookupLive (close_session st now sid res rat) now sid).map
      SessionRec.closed_at = some (some now) ∧
    am_read (close_session st now sid res rat) now sid
      = am_read st now sid ++ [⟨"system", "Чат завершён", now⟩] ∧
    sid ∉ (close_session st now sid res rat).queue ∧
    get_queue_position (close_session st now sid res rat) sid = none ∧
    statusOf (close_session (close_session st now sid res rat) now sid res
      rat) now sid = some "closed" ∧
    am_read (close_session (close_session st now sid res rat) now sid res
      rat) now sid
      = am_read st now sid ++ [⟨"system", "Чат завершён", now⟩,
          ⟨"system", "Чат завершён", now⟩] := by
  have hread : ∀ s : Store,
      am_read (close_session s now sid res rat) now sid
        = am_read s now sid ++ [⟨"system", "Чат завершён", now⟩] := by
    intro s
    rw [am_read_getD (close_session s now sid res rat), lookupLive_close,
      am_read_getD s]
    exact rfl
  have hnotmem : sid ∉ (close_session st now sid res rat).queue := by
    rw [close_session_queue]
    intro hmem
    exact ((mem_lrem sid sid st.queue).1 hmem).2 rfl
  refine ⟨statusOf_close st now sid res rat, ?_, hread st, hnotmem, ?_,
    statusOf_close _ now sid res rat, ?_⟩
  · rw [lookupLive_close]
    exact rfl
  · unfold get_queue_position
    rw [posOf_eq_none_iff]
    exact hnotmem
  · rw [hread (close_session st now sid res rat), hread st,
      List.append_assoc]
    exact rfl

/-- C10: get_queue returns, in queue order, exactly the sessions whose
records still resolve through get_session; queue ids whose records have
expired or were never stored are silently skipped, with no error and no
placeholder entry. -/
theorem C10_get_queue_skips_missing (st : Store) (now : Nat) :
    get_queue st now = st.queue.filterMap (fun sid => get_session st now sid) :=
  get_queue_go_filterMap st now st.queue

/-- C1 counterexample: the status field is NOT monotonic under arbitrary
call orders.  Concretely, create a session at time 0, close it at time 1
(status closed), then call activate_session at time 2: the closed
session reads back as active, a backward transition closed to active,
because activate_session writes the status unconditionally. -/
theorem C1_counterexample :
    statusOf (close_session (create_session emptyStore 0 "s" "hello" "u")
        1 "s" "resolved" none) 2 "s" = some "closed" ∧
    statusOf (activate_session (close_session
        (create_session emptyStore 0 "s" "hello" "u") 1 "s" "resolved" none)
        2 "s") 2 "s" = some "active" := by
  decide

/-- C2: add_message is literally a read phase (HGET of the whole
message-log blob) followed by a write phase (HSET of the whole blob), so
two racing appends that both read before either writes lose one update.
At the failing interleaving (user append and agent append on session s,
both reading first), the final log holds only the agent message; the
sequential composition of the same two appends keeps both. -/
theorem C2_lost_update :
    (∀ st now sid role content, add_message st now sid role content
        = am_write st now sid (am_read st now sid) ⟨role, content, now⟩) ∧
    am_read
      (am_write
        (am_write (create_session emptyStore 0 "s" "hello" "u") 1 "s"
          (am_read (create_session emptyStore 0 "s" "hello" "u") 1 "s")
          ⟨"user", "ping", 1⟩)
        1 "s"
        (am_read (create_session emptyStore 0 "s" "hello" "u") 1 "s")
        ⟨"agent", "pong", 1⟩)
      1 "s" = [⟨"user", "hello", 0⟩, ⟨"agent", "pong", 1⟩] ∧
    am_read (add_message (add_message (create_session emptyStore 0 "s"
        "hello" "u") 1 "s" "user" "ping") 1 "s" "agent" "pong") 1 "s"
      = [⟨"user", "hello", 0⟩, ⟨"user", "ping", 1⟩, ⟨"agent", "pong", 1⟩] := by
  refine ⟨fun st now sid role content => rfl, ?_, ?_⟩ <;> decide

/-- C3 counterexample: on a session id that was never stored, only
assign_agent rejects and leaves the store unchanged; activate_session,
add_message and close_session do not fail and create a fresh partial
session hash as a side effect of the call. -/
theorem C3_counterexample :
    lookupLive emptyStore 0 "g" = none ∧
    statusOf (activate_session emptyStore 0 "g") 0 "g" = some "active" ∧
    am_read (add_message emptyStore 0 "g" "user" "hi") 0 "g"
      = [⟨"user", "hi", 0⟩] ∧
    statusOf (close_session emptyStore 0 "g" "resolved" none) 0 "g"
      = some "closed" ∧
    assign_agent emptyStore 0 "g" "a" "A" = (false, emptyStore) := by
  refine ⟨rfl, ?_, ?_, ?_, ?_⟩ <;> decide

/-- C4 counterexample: a second high-priority session is LPUSHed to the
very head of the queue, so it lands BEFORE the previously-queued
high-priority session, not after it: after creating high session s1 and
then high session s2, get_queue_position reports s2 at rank 1 and s1 at
rank 2, where the claim requires s2 at rank 2. -/
theorem C4_counterexample :
    calculate_priority "urgent help" "u" = "high" ∧
    calculate_priority "urgent too" "u" = "high" ∧
    get_queue_position (create_session (create_session emptyStore 0 "s1"
        "urgent help" "u") 1 "s2" "urgent too" "u") "s2" = some 1 ∧
    get_queue_position (create_session (create_session emptyStore 0 "s1"
        "urgent help" "u") 1 "s2" "urgent too" "u") "s1" = some 2 ∧
    get_queue_position (create_session (create_session emptyStore 0 "s1"
        "urgent help" "u") 1 "s2" "urgent too" "u") "s2" ≠ some 2 := by
  refine ⟨rfl, rfl, ?_, ?_, ?_⟩ <;> decide

/-- C5 counterexample: close_session is not idempotent on the message
log: the first close appends one system message, and a second close
appends another one (and restamps closed-at), so the second terminal
state differs from the first. -/
theorem C5_counterexample :
    am_read (close_session (create_session emptyStore 0 "s" "hello" "u")
        1 "s" "resolved" none) 2 "s"
      = [⟨"user", "hello", 0⟩, ⟨"system", "Чат завершён", 1⟩] ∧
    am_read (close_session (close_session (create_session emptyStore 0 "s"
        "hello" "u") 1 "s" "resolved" none) 2 "s" "resolved" none) 2 "s"
      = [⟨"user", "hello", 0⟩, ⟨"system", "Чат завершён", 1⟩,
         ⟨"system", "Чат завершён", 2⟩] ∧
    close_session (close_session (create_session emptyStore 0 "s" "hello"
        "u") 1 "s" "resolved" none) 2 "s" "resolved" none
      ≠ close_session (create_session emptyStore 0 "s" "hello" "u")
        1 "s" "resolved" none := by
  refine ⟨?_, ?_, ?_⟩ <;> decide

/-- C6 counterexample: in the string "ok нет да" the earliest-occurring
affirmative phrase ("ok", offset 0) precedes the earliest-occurring
negative phrase ("нет", offset 3), so the claim requires the answer yes;
the code instead compares the offset of the first affirmative pattern in
LIST order that matches ("да", offset 7) and answers no. -/
theorem C6_counterexample :
    earliestOffset (normQuery "ok нет да") yes_patterns = some 0 ∧
    earliestOffset (normQuery "ok нет да") no_patterns = some 3 ∧
    parse_user_response "ok нет да" = "no" := by
  refine ⟨?_, ?_, ?_⟩ <;> decide

/-- C7 counterexample: only create_session sets the 3-hour TTL; a
structural write at time 100 (add_message or assign_agent) leaves the
stored expiry deadline at 10800, so the remaining TTL right after the
write is 10700 seconds, not the full 10800 the claim requires (a refresh
would move the deadline to 100 + 10800). -/
theorem C7_counterexample :
    storedExpireAt (create_session emptyStore 0 "s" "hello" "u") "s"
      = some 10800 ∧
    storedExpireAt (add_message (create_session emptyStore 0 "s" "hello"
        "u") 100 "s" "user" "hi") "s" = some 10800 ∧
    storedExpireAt ((assign_agent (create_session emptyStore 0 "s" "hello"
        "u") 100 "s" "a" "A").2) "s" = some 10800 ∧
    (10800 : Nat) ≠ 100 + 10800 := by
  refine ⟨?_, ?_, ?_, ?_⟩ <;> decide

/-- C8 counterexample: TTL expiry of a queued session's record does not
remove its queue entry.  A session created at time 0 has expired by time
20000 (record reads as absent), yet its id is still in the queue and
get_queue_position still reports rank 1, so the in-queue-iff-waiting
invariant fails after expiry. -/
theorem C8_counterexample :
    "s" ∈ (create_session emptyStore 0 "s" "hello" "u").queue ∧
    get_queue_position (create_session emptyStore 0 "s" "hello" "u") "s"
      = some 1 ∧
    lookupLive (create_session emptyStore 0 "s" "hello" "u") 20000 "s"
      = none ∧
    ¬ queueInv (create_session emptyStore 0 "s" "hello" "u") 20000 := by
  refine ⟨?_, ?_, ?_, ?_⟩ <;> decide

/-- C9 counterexample: the 5-minute expiry is set on the single shared
agents hash, not per agent.  With only agent b heartbeating at time 0,
the whole registry reads empty at time 400; but if agent a heartbeats at
time 200, the shared key survives until 500 and b is STILL listed at
time 400, although b's own last heartbeat was 400 seconds earlier — so
refreshing a extends b, and b does not expire alone. -/
theorem C9_counterexample :
    get_online_agents (mark_agent_online emptyStore 0 "b" "B") 400 = [] ∧
    lookupK (get_online_agents (mark_agent_online (mark_agent_online
        emptyStore 0 "b" "B") 200 "a" "A") 400) "b"
      = some ⟨"B", "online", 0⟩ ∧
    0 + 300 < 400 := by
  refine ⟨?_, ?_, ?_⟩ <;> decide

/-- C7 amended: only create_session arms the 3-hour TTL (EXPIRE to
now + 10800); add_message, activate_session, assign_agent and
close_session are plain HSET writes that leave the stored expiry
deadline of an existing session unchanged, so a busy session still
expires 3 hours after creation (C7_counterexample). -/
theorem C7_amended (st : Store) (now : Nat)
    (sid q uid role content aid an res : String) (rat : Option Nat)
    (r : SessionRec) (h : lookupLive st now sid = some r) :
    storedExpireAt (create_session st now sid q uid) sid
      = some (now + 10800) ∧
    storedExpireAt (add_message st now sid role content) sid = r.expireAt ∧
    storedExpireAt (activate_session st now sid) sid = r.expireAt ∧
    storedExpireAt ((assign_agent st now sid aid an).2) sid = r.expireAt ∧
    storedExpireAt (close_session st now sid res rat) sid = r.expireAt := by
  refine ⟨?_, ?_, ?_, ?_, ?_⟩
  · unfold storedExpireAt
    rw [create_session_sessions, lookupK_insertKey_self]
    exact rfl
  · unfold storedExpireAt
    rw [add_message_sessions, lookupK_insertKey_self, h]
    exact rfl
  · unfold storedExpireAt
    rw [activate_session_sessions, lookupK_insertKey_self, h]
    exact rfl
  · rw [assign_agent_found st now sid aid an r h]
    show (lookupK (insertKey sid
        { r with status := "assigned", agent_id := aid, agent_name := an,
                 assigned_at := some now } st.sessions) sid).bind
        SessionRec.expireAt = r.expireAt
    rw [lookupK_insertKey_self]
    exact rfl
  · obtain ⟨r2, r1, hs, _, he⟩ := close_session_sessions st now sid res rat
    unfold storedExpireAt
    rw [hs, lookupK_insertKey_self]
    show r2.expireAt = r.expireAt
    rw [he, h]
    exact rfl

/-- C7 amended witness: on a concrete session created at time 0, an
add_message at the same instant leaves the deadline at 10800, and
create itself arms it. -/
theorem C7_amended_witness :
    storedExpireAt (add_message (create_session emptyStore 0 "s" "hello"
      "u") 0 "s" "user" "x") "s" = some (0 + 10800) ∧
    storedExpireAt (create_session (create_session emptyStore 0 "s" "hello"
      "u") 0 "s" "hello" "u") "s" = some (0 + 10800) :=
  ⟨(C7_amended (create_session emptyStore 0 "s" "hello" "u") 0 "s" "hello"
      "u" "user" "x" "a" "A" "resolved" none (createRec 0 "hello" "u")
      (lookupLive_create emptyStore 0 "s" "hello" "u")).2.1,
   (C7_amended (create_session emptyStore 0 "s" "hello" "u") 0 "s" "hello"
      "u" "user" "x" "a" "A" "resolved" none (createRec 0 "hello" "u")
      (lookupLive_create emptyStore 0 "s" "hello" "u")).1⟩

/-- C4 amended: a high-priority session is LPUSHed at the very head of
the queue, BEFORE every previously-queued session, including earlier
high-priority ones (LIFO among high) — not after them as the claim
states; a normal-priority session is RPUSHed at the back; and
get_queue_position reports the 1-based rank, or not-found for an id that
is nowhere in the queue. -/
theorem C4_amended (st : Store) (now : Nat) (sid q uid : String) :
    (calculate_priority q uid = "high" →
      (create_session st now sid q uid).queue = sid :: st.queue ∧
      get_queue_position (create_session st now sid q uid) sid = some 1) ∧
    (calculate_priority q uid = "normal" →
      (create_session st now sid q uid).queue = st.queue ++ [sid]) ∧
    (∀ sid2 : String, sid2 ∉ st.queue → sid2 ≠ sid →
      get_queue_position (create_session st now sid q uid) sid2 = none) := by
  refine ⟨?_, ?_, ?_⟩
  · intro hp
    have hq : (create_session st now sid q uid).queue = sid :: st.queue := by
      rw [create_session_queue, if_pos hp]
    refine ⟨hq, ?_⟩
    unfold get_queue_position
    rw [hq]
    simp [posOf]
  · intro hp
    have hne : ¬ calculate_priority q uid = "high" := by
      rw [hp]
      decide
    rw [create_session_queue, if_neg hne]
  · intro sid2 h2 hne
    unfold get_queue_position
    rw [posOf_eq_none_iff, create_session_queue]
    by_cases hp : calculate_priority q uid = "high"
    · rw [if_pos hp]
      intro hmem
      rcases List.mem_cons.1 hmem with heq | hmem2
      · exact hne heq
      · exact h2 hmem2
    · rw [if_neg hp]
      intro hmem
      rcases List.mem_append.1 hmem with hmem2 | hmem3
      · exact h2 hmem2
      · exact hne (List.mem_singleton.1 hmem3)

/-- C4 amended witness at a concrete high-priority query on the empty
store. -/
theorem C4_amended_witness :
    calculate_priority "urgent" "u" = "high" ∧
    (create_session emptyStore 0 "s1" "urgent" "u").queue = ["s1"] ∧
    get_queue_position (create_session emptyStore 0 "s1" "urgent" "u") "s2"
      = none :=
  ⟨by decide,
   ((C4_amended emptyStore 0 "s1" "urgent" "u").1 (by decide)).1,
   (C4_amended emptyStore 0 "s1" "urgent" "u").2.2 "s2" (by decide)
     (by decide)⟩

theorem firstMatch_isSome (ql : List Char) (pats : List String) :
    (firstMatch ql pats).isSome = anyMatch ql pats := by
  induction pats with
  | nil => rfl
  | cons p ps ih =>
    unfold firstMatch anyMatch
    by_cases hp : containsSub ql p.data
    · simp [hp, List.any_cons]
    · simp [hp, List.any_cons]
      exact ih

/-- C6 amended: parse_user_response answers unclear when neither list
matches, yes when only the affirmative list matches, no when only the
negative list matches; and when BOTH match, the tie-break compares the
first occurrence offset of the first pattern in LIST order that matches
from each list — not the earliest-occurring phrase of each polarity
(C6_counterexample separates the two readings). -/
theorem C6_amended (q : String) :
    (matchesYes q = false → matchesNo q = false →
      parse_user_response q = "unclear") ∧
    (matchesYes q = true → matchesNo q = false →
      parse_user_response q = "yes") ∧
    (matchesYes q = false → matchesNo q = true →
      parse_user_response q = "no") ∧
    (∀ py pn : List Char,
      firstMatch (normQuery q) yes_patterns = some py →
      firstMatch (normQuery q) no_patterns = some pn →
      parse_user_response q
        = if indexOfSub (normQuery q) py < indexOfSub (normQuery q) pn
          then "yes" else "no") := by
  refine ⟨?_, ?_, ?_, ?_⟩
  · intro h1 h2
    unfold matchesYes at h1
    unfold matchesNo at h2
    simp only [parse_user_response]
    rw [h1, h2]
    simp
  · intro h1 h2
    unfold matchesYes at h1
    unfold matchesNo at h2
    simp only [parse_user_response]
    rw [h1, h2]
    simp
  · intro h1 h2
    unfold matchesYes at h1
    unfold matchesNo at h2
    simp only [parse_user_response]
    rw [h1, h2]
    simp
  · intro py pn hy hn
    have hY : anyMatch (normQuery q) yes_patterns = true := by
      rw [← firstMatch_isSome, hy]
      rfl
    have hN : anyMatch (normQuery q) no_patterns = true := by
      rw [← firstMatch_isSome, hn]
      rfl
    simp only [parse_user_response]
    rw [hY, hN, hy, hn]
    exact rfl

/-- C6 amended witness: the three single-polarity branches at concrete
inputs. -/
theorem C6_amended_witness :
    parse_user_response "да" = "yes" ∧ parse_user_response "нет" = "no" ∧
    parse_user_response "hm" = "unclear" :=
  ⟨(C6_amended "да").2.1 (by decide) (by decide),
   (C6_amended "нет").2.2.1 (by decide) (by decide),
   (C6_amended "hm").1 (by decide) (by decide)⟩

/-- C9 amended: mark_agent_online stores the heartbeat in one shared
hash and EXPIREs that WHOLE key for 300 seconds, so the deadline it arms
is global: any agent's heartbeat extends every listed agent's presence,
the registry empties as a whole 300 seconds after the LAST heartbeat,
and other agents' entries are preserved (not individually refreshed) by
the write (C9_counterexample shows one agent kept alive by another's
heartbeat past its own window). -/
theorem C9_amended (st : Store) (now : Nat) (aid an : String) :
    (mark_agent_online st now aid an).agentsExpireAt = some (now + 300) ∧
    lookupK (mark_agent_online st now aid an).agents aid
      = some ⟨an, "online", now⟩ ∧
    (∀ t, now + 300 ≤ t →
      get_online_agents (mark_agent_online st now aid an) t = []) ∧
    (∀ bid, bid ≠ aid → agentsAlive st now = true →
      lookupK (mark_agent_online st now aid an).agents bid
        = lookupK st.agents bid) := by
  refine ⟨rfl, ?_, ?_, ?_⟩
  · show lookupK (insertKey aid (⟨an, "online", now⟩ : AgentInfo)
        (if agentsAlive st now then st.agents else [])) aid = _
    rw [lookupK_insertKey_self]
  · intro t ht
    have hdead : agentsAlive (mark_agent_online st now aid an) t = false := by
      show decide (t < now + 300) = false
      simp only [decide_eq_false_iff_not]
      omega
    unfold get_online_agents
    rw [hdead]
    exact rfl
  · intro bid hbid halive
    show lookupK (insertKey aid (⟨an, "online", now⟩ : AgentInfo)
        (if agentsAlive st now then st.agents else [])) bid = _
    rw [lookupK_insertKey_ne aid bid _ _ hbid, if_pos halive]

/-- C9 amended witness on a concrete single heartbeat. -/
theorem C9_amended_witness :
    (mark_agent_online emptyStore 0 "a" "A").agentsExpireAt
      = some (0 + 300) ∧
    get_online_agents (mark_agent_online emptyStore 0 "a" "A") 400 = [] ∧
    lookupK (mark_agent_online emptyStore 0 "a" "A").agents "b"
      = lookupK emptyStore.agents "b" :=
  ⟨(C9_amended emptyStore 0 "a" "A").1,
   (C9_amended emptyStore 0 "a" "A").2.2.1 400 (by omega),
   (C9_amended emptyStore 0 "a" "A").2.2.2 "b" (by decide) rfl⟩

/-- C8 amended: as long as no record expires, the in-queue-iff-waiting
invariant IS preserved by create_session (enqueues a fresh waiting
record), assign_agent (marks assigned and dequeues, or rejects leaving
the store intact) and close_session (marks closed and dequeues); it is
NOT preserved by TTL expiry, which deletes only the record and leaves a
dangling queue entry (C8_counterexample). -/
theorem C8_amended (st : Store) (now : Nat) (sid q uid aid an res : String)
    (rat : Option Nat) (h : queueInv st now) :
    queueInv (create_session st now sid q uid) now ∧
    queueInv ((assign_agent st now sid aid an).2) now ∧
    queueInv (close_session st now sid res rat) now := by
  obtain ⟨hfwd, hbwd⟩ := h
  refine ⟨⟨?_, ?_⟩, ?_, ⟨?_, ?_⟩⟩
  · intro sid2 hmem
    by_cases he : sid2 = sid
    · subst he
      unfold statusOf
      rw [lookupLive_create]
      exact rfl
    · have hold : sid2 ∈ st.queue := by
        rw [create_session_queue] at hmem
        by_cases hp : calculate_priority q uid = "high"
        · rw [if_pos hp] at hmem
          rcases List.mem_cons.1 hmem with heq | hm
          · exact absurd heq he
          · exact hm
        · rw [if_neg hp] at hmem
          rcases List.mem_append.1 hmem with hm | hm
          · exact hm
          · exact absurd (List.mem_singleton.1 hm) he
      have hw := hfwd sid2 hold
      unfold statusOf at hw ⊢
      rw [lookupLive_create_ne st now sid q uid sid2 he]
      exact hw
  · intro p hp halive hwait
    rw [create_session_sessions] at hp
    rw [create_session_queue]
    rcases (mem_insertKey sid (createRec now q uid) p st.sessions).1 hp with
      heq | hmem
    · subst heq
      by_cases hp2 : calculate_priority q uid = "high"
      · rw [if_pos hp2]
        exact List.mem_cons_self _ _
      · rw [if_neg hp2]
        exact List.mem_append.2 (Or.inr (List.mem_singleton.2 rfl))
    · obtain ⟨hmem2, hne⟩ := hmem
      have hq := hbwd p hmem2 halive hwait
      by_cases hp2 : calculate_priority q uid = "high"
      · rw [if_pos hp2]
        exact List.mem_cons_of_mem _ hq
      · rw [if_neg hp2]
        exact List.mem_append.2 (Or.inl hq)
  · cases hl : lookupLive st now sid with
    | none =>
      rw [assign_agent_missing st now sid aid an hl]
      exact ⟨hfwd, hbwd⟩
    | some r =>
      rw [assign_agent_found st now sid aid an r hl]
      constructor
      · intro sid2 hmem
        have hmem2 := (mem_lrem sid sid2 st.queue).1 hmem
        have hw := hfwd sid2 hmem2.1
        unfold statusOf at hw ⊢
        show (lookupS (insertKey sid
            { r with status := "assigned", agent_id := aid, agent_name := an,
                     assigned_at := some now } st.sessions) now sid2).map
            SessionRec.status = some "waiting"
        rw [lookupS_insertKey_ne st.sessions now sid sid2 _ hmem2.2]
        exact hw
      · intro p hp halive hwait
        have hp2 : p ∈ insertKey sid
            { r with status := "assigned", agent_id := aid, agent_name := an,
                     assigned_at := some now } st.sessions := hp
        rcases (mem_insertKey _ _ _ _).1 hp2 with heq | hmem
        · subst heq
          have hw2 : ("assigned" : String) = "waiting" := hwait
          exact absurd hw2 (by decide)
        · obtain ⟨hmem2, hne⟩ := hmem
          have hq := hbwd p hmem2 halive hwait
          show p.1 ∈ lrem sid st.queue
          exact (mem_lrem sid p.1 st.queue).2 ⟨hq, hne⟩
  · intro sid2 hmem
    rw [close_session_queue] at hmem
    have hmem2 := (mem_lrem sid sid2 st.queue).1 hmem
    have hw := hfwd sid2 hmem2.1
    obtain ⟨r2, r1, hs, hst, _⟩ := close_session_sessions st now sid res rat
    unfold statusOf at hw ⊢
    have heq : lookupLive (close_session st now sid res rat) now sid2
        = lookupLive st now sid2 := by
      show lookupS (close_session st now sid res rat).sessions now sid2
        = lookupS st.sessions now sid2
      rw [hs, lookupS_insertKey_ne _ now sid sid2 _ hmem2.2,
        lookupS_insertKey_ne _ now sid sid2 _ hmem2.2]
    rw [heq]
    exact hw
  · intro p hp halive hwait
    obtain ⟨r2, r1, hs, hst, _⟩ := close_session_sessions st now sid res rat
    rw [hs] at hp
    rw [close_session_queue]
    rcases (mem_insertKey _ _ _ _).1 hp with heq | hmem
    · subst heq
      have hw2 : r2.status = "waiting" := hwait
      rw [hst] at hw2
      exact absurd hw2 (by decide)
    · obtain ⟨hp2, hne⟩ := hmem
      rcases (mem_insertKey _ _ _ _).1 hp2 with heq2 | hmem3
      · rw [heq2] at hne
        exact absurd rfl hne
      · obtain ⟨hp3, _⟩ := hmem3
        have hq := hbwd p hp3 halive hwait
        exact (mem_lrem sid p.1 st.queue).2 ⟨hq, hne⟩

/-- C8 amended witness: the invariant holds on the empty store and is
preserved by a concrete create_session. -/
theorem C8_amended_witness :
    queueInv emptyStore 0 ∧
    queueInv (create_session emptyStore 0 "s" "hello" "u") 0 :=
  ⟨by decide,
   (C8_amended emptyStore 0 "s" "hello" "u" "a" "A" "resolved" none
     (by decide)).1⟩
